import Mathlib

/-!
Shallow embedding of the tracing/orchestration core of the
`financial-ai-analyst` repository:

* `src/config/langsmith_config.py` — `LangSmithConfig.create_run` / `end_run`
  (best-effort observability sink over a fallible transport client);
* `src/services/enhanced_qa_chatbot.py` — `EnhancedQAChatbot.ask_question`
  (three-stage pipeline with a root span and three child spans),
  `start_conversation_session`, `end_conversation_session`;
* `src/agents/enhanced_base_agent.py` — `EnhancedBaseAgent.execute` and
  `EnhancedBaseAgent._call_llm`.

Conventions of the embedding:

* Python exceptions are values of `PyError` (type name and message);
  a Python function that may raise returns `Except PyError α`.
  A function whose Lean type has no `Except` in its result cannot raise:
  that is the formal reading of "never raises to its caller".
* The LangSmith network client is a `Client` with injectable transport
  failures (`createFail` / `endFail`); the sink records created runs and
  run-end records in an explicit `TraceState`, threaded through every
  operation.  Structured log calls append their message string to
  `TraceState.log`; structured key/value fields of the logger are dropped,
  since no claim depends on them.
* `str(uuid.uuid4())` is modelled as drawing from a fresh-name supply
  (`TraceState.fresh` counter): each draw yields a distinct, non-empty
  string.  This idealises the 2^-122 collision probability of version-4
  UUIDs as exact freshness.
* The three pipeline collaborators (`_extract_company_info`,
  `_search_documents`, `_generate_answer`) and the agent's `_execute` /
  `llm.ainvoke` are abstract fallible functions supplied as fields, exactly
  as the spec classifies them: external collaborators behind narrow
  interfaces.  Their result types follow the spec interfaces: a company
  mapping, an ordered sequence of source identifiers, an answer string.
-/

namespace FinancialAI

/-- A Python value as it appears in span inputs/outputs and in the
exchange record: strings, integers, booleans, lists, and (insertion-ordered)
string-keyed dictionaries. -/
inductive Val : Type where
  | vstr : String → Val
  | vnat : Nat → Val
  | vbool : Bool → Val
  | vlist : List Val → Val
  | vdict : List (String × Val) → Val

/-- A raised Python exception, identified by its type name and message;
re-raising "unchanged" means propagating the same `PyError` value. -/
structure PyError : Type where
  ty : String
  msg : String
deriving DecidableEq

/-- A run (span) as recorded by the observability sink at creation:
mirrors the keyword arguments of `langsmith_config.create_run`. -/
structure RunRecord : Type where
  run_id : String
  name : String
  inputs : Val
  tags : List String
  parent_run_id : Option String

/-- A run-end record as recorded by the sink: `end_run(run_id, outputs, error)`. -/
structure EndRecord : Type where
  run_id : String
  outputs : Option Val
  error : Option PyError

/-- The explicit state threaded through the embedding: the sink's records,
the structured log, and the fresh-name supply for `uuid.uuid4()`. -/
structure TraceState : Type where
  created : List RunRecord
  ended : List EndRecord
  log : List String
  fresh : Nat

/-- The empty state at the start of one isolated invocation. -/
def TraceState.init : TraceState :=
  { created := [], ended := [], log := [], fresh := 0 }

/-- `logger.info(msg, ...)`: appends the message to the log. -/
def TraceState.logInfo (s : TraceState) (msg : String) : TraceState :=
  { s with log := s.log ++ [msg] }

/-- `logger.error(msg, error=str(e), ...)`: appends the message and the
error text to the log. -/
def TraceState.logError (s : TraceState) (msg : String) (e : PyError) : TraceState :=
  { s with log := s.log ++ [msg ++ ": " ++ e.msg] }

/-- The string rendering of the n-th fresh uuid: `n+1` copies of `'u'`,
hence non-empty and distinct for distinct draws. -/
def uuidStr (n : Nat) : String :=
  String.mk (List.replicate (n + 1) 'u')

/-- `str(uuid.uuid4())`, modelled as a fresh-name supply: the n-th draw is
the non-empty string `uuidStr n`, and the counter advances. -/
def uuid4 (s : TraceState) : String × TraceState :=
  (uuidStr s.fresh, { s with fresh := s.fresh + 1 })

/-- The LangSmith transport client.  `createFail` / `endFail` inject a
transport exception into `client.create_run` / `client.end_run`; `none`
means the network call succeeds and the record reaches the sink. -/
structure Client : Type where
  createFail : Option PyError
  endFail : Option PyError

/-- `client.create_run(...)`: either raises the injected transport error or
appends the run record to the sink. -/
def Client.create_run (c : Client) (r : RunRecord) (s : TraceState) :
    Except PyError TraceState :=
  match c.createFail with
  | some e => .error e
  | none => .ok { s with created := s.created ++ [r] }

/-- `client.end_run(run_id, outputs, error)`: either raises the injected
transport error or appends the end record to the sink. -/
def Client.end_run (c : Client) (r : EndRecord) (s : TraceState) :
    Except PyError TraceState :=
  match c.endFail with
  | some e => .error e
  | none => .ok { s with ended := s.ended ++ [r] }

/-- `LangSmithConfig`: the `enabled` flag (already downgraded to `False`
when the API key is missing or client construction failed, per
`__init__`) and the optional client handle. -/
structure LangSmithConfig : Type where
  enabled : Bool
  client : Option Client

/-- `LangSmithConfig.is_enabled`. -/
def LangSmithConfig.is_enabled (cfg : LangSmithConfig) : Bool :=
  cfg.enabled

/-- `LangSmithConfig.create_run`: returns `None` with no effect when
disabled or without a client; otherwise calls the client and, if the
transport raises, catches the exception, logs it, and returns `None`.
The Lean result type (`Option String × TraceState`, no `Except`) records
that this function never raises to its caller. -/
def LangSmithConfig.create_run (cfg : LangSmithConfig) (name : String)
    (inputs : Val) (run_id : String) (tags : List String)
    (parent_run_id : Option String) (s : TraceState) :
    Option String × TraceState :=
  match cfg.enabled, cfg.client with
  | true, some c =>
    match c.create_run ⟨run_id, name, inputs, tags, parent_run_id⟩ s with
    | .error e => (none, s.logError "Failed to create LangSmith run" e)
    | .ok s' => (some run_id, s')
  | _, _ => (none, s)

/-- `LangSmithConfig.end_run`: no-op when disabled or without a client;
otherwise calls the client and, if the transport raises, catches the
exception and logs it.  The result type (`TraceState`, no `Except`)
records that this function never raises to its caller. -/
def LangSmithConfig.end_run (cfg : LangSmithConfig) (run_id : String)
    (outputs : Option Val) (error : Option PyError) (s : TraceState) :
    TraceState :=
  match cfg.enabled, cfg.client with
  | true, some c =>
    match c.end_run ⟨run_id, outputs, error⟩ s with
    | .error e => s.logError "Failed to end LangSmith run" e
    | .ok s' => s'
  | _, _ => s

/-- Injection of a company-info mapping (the spec's `mapping`, §6) into `Val`. -/
def companyVal (ci : List (String × String)) : Val :=
  Val.vdict (ci.map (fun p => (p.1, Val.vstr p.2)))

/-- `EnhancedQAChatbot`: the tracing flag (already ANDed with the global
config's `is_enabled()` by `__init__`), the class-name constant, the config
handle, and the three pipeline collaborators inherited from `QAChatbot`
(external collaborators in the spec's sense, typed per §6). -/
structure EnhancedQAChatbot : Type where
  cfg : LangSmithConfig
  enable_tracing : Bool
  chatbot_name : String
  extract_company_info : String → Except PyError (List (String × String))
  search_documents : List (String × String) → String →
    Except PyError (List String)
  generate_answer : String → List String → List (String × String) →
    Except PyError String

/-- `EnhancedQAChatbot.__init__(enable_tracing)`:
`self.enable_tracing = enable_tracing and langsmith_config.is_enabled()`,
`self.chatbot_name = "EnhancedQAChatbot"`. -/
def mkChatbot (enable_tracing : Bool) (cfg : LangSmithConfig)
    (ext : String → Except PyError (List (String × String)))
    (sea : List (String × String) → String → Except PyError (List String))
    (gen : String → List String → List (String × String) →
      Except PyError String) : EnhancedQAChatbot :=
  { cfg := cfg
    enable_tracing := enable_tracing && cfg.is_enabled
    chatbot_name := "EnhancedQAChatbot"
    extract_company_info := ext
    search_documents := sea
    generate_answer := gen }

/-- The repeated block
`if self.enable_tracing: rid = str(uuid.uuid4()); langsmith_config.create_run(...)`
that opens the root span and each child span in `ask_question`
(the created-run handle returned by `create_run` is discarded, as in the
source; the locally generated id is what the caller keeps). -/
def EnhancedQAChatbot.openSpan (bot : EnhancedQAChatbot) (name : String)
    (inputs : Val) (tags : List String) (parent_run_id : Option String)
    (s : TraceState) : Option String × TraceState :=
  if bot.enable_tracing then
    let u := uuid4 s
    let r := bot.cfg.create_run name inputs u.1 tags parent_run_id u.2
    (some u.1, r.2)
  else (none, s)

/-- The repeated block
`if self.enable_tracing and rid: langsmith_config.end_run(rid, outputs=...)`. -/
def EnhancedQAChatbot.closeOut (bot : EnhancedQAChatbot)
    (rid : Option String) (outputs : Val) (s : TraceState) : TraceState :=
  match rid with
  | some r =>
    if bot.enable_tracing then bot.cfg.end_run r (some outputs) none s else s
  | none => s

/-- The repeated block
`if self.enable_tracing and rid: langsmith_config.end_run(rid, error=e)`. -/
def EnhancedQAChatbot.closeErr (bot : EnhancedQAChatbot)
    (rid : Option String) (e : PyError) (s : TraceState) : TraceState :=
  match rid with
  | some r =>
    if bot.enable_tracing then bot.cfg.end_run r none (some e) s else s
  | none => s

/-- The `result` dictionary assembled by `ask_question` on success —
the Question-Answer Exchange record. -/
def exchangeVal (question answer : String) (ci : List (String × String))
    (docs : List String) : Val :=
  Val.vdict
    [("question", Val.vstr question),
     ("answer", Val.vstr answer),
     ("company_info", companyVal ci),
     ("sources", Val.vlist (docs.map Val.vstr)),
     ("document_count", Val.vnat docs.length)]

/-- The body of the outer `try:` of `ask_question` after the root span is
opened: the three sequential stages, each with its child span opened before
the stage and closed with outputs on success or with the error (followed by
`raise`) on failure, and the assembly of the `result` dictionary. -/
def EnhancedQAChatbot.askBody (bot : EnhancedQAChatbot) (question : String)
    (run_id : Option String) (s : TraceState) :
    Except PyError Val × TraceState :=
  let o1 := bot.openSpan "company_extraction"
    (Val.vdict [("question", Val.vstr question)])
    ["chatbot", "company-extraction"] run_id s
  match bot.extract_company_info question with
  | .error e => (.error e, bot.closeErr o1.1 e o1.2)
  | .ok company_info =>
    let s := bot.closeOut o1.1
      (Val.vdict [("company_info", companyVal company_info)]) o1.2
    let o2 := bot.openSpan "document_search"
      (Val.vdict [("company_info", companyVal company_info),
                  ("question", Val.vstr question)])
      ["chatbot", "document-search"] run_id s
    match bot.search_documents company_info question with
    | .error e => (.error e, bot.closeErr o2.1 e o2.2)
    | .ok relevant_docs =>
      let s := bot.closeOut o2.1
        (Val.vdict [("document_count", Val.vnat relevant_docs.length)]) o2.2
      let o3 := bot.openSpan "answer_generation"
        (Val.vdict [("question", Val.vstr question),
                    ("document_count", Val.vnat relevant_docs.length),
                    ("company_info", companyVal company_info)])
        ["chatbot", "answer-generation"] run_id s
      match bot.generate_answer question relevant_docs company_info with
      | .error e => (.error e, bot.closeErr o3.1 e o3.2)
      | .ok answer =>
        let s := bot.closeOut o3.1
          (Val.vdict [("answer", Val.vstr answer)]) o3.2
        let result := exchangeVal question answer company_info relevant_docs
        (.ok result, s.logInfo "Question processed successfully")

/-- `EnhancedQAChatbot.ask_question(question, conversation_history)`:
opens the root span (nothing before the `run_id` assignment can raise, so
the root-opening block is hoisted out of the `try:` unchanged), runs the
three-stage body, and on success closes the root span with the full result
and returns it, while the outer `except:` logs the failure, closes the root
span with the error, and re-raises the same exception value. -/
def EnhancedQAChatbot.ask_question (bot : EnhancedQAChatbot)
    (question : String) (conversation_history : Option (List Val))
    (s : TraceState) : Except PyError Val × TraceState :=
  let o := bot.openSpan (bot.chatbot_name ++ "_query")
    (Val.vdict [("question", Val.vstr question),
                ("conversation_history",
                 Val.vlist (conversation_history.getD []))])
    ["chatbot", "qa", "query"] none s
  let run_id := o.1
  let s := o.2.logInfo "Processing question"
  match bot.askBody question run_id s with
  | (.ok result, s) =>
    let s := bot.closeOut run_id result s
    (.ok result, s)
  | (.error e, s) =>
    let s := s.logError "Failed to process question" e
    let s := bot.closeErr run_id e s
    (.error e, s)

/-- `EnhancedQAChatbot.start_conversation_session(session_id=None)`:
`if not session_id:` (Python truthiness: `None` or the empty string) a new
uuid is generated; with tracing the session span is opened with the session
id itself as the run id; the id is logged and returned. -/
def EnhancedQAChatbot.start_conversation_session (bot : EnhancedQAChatbot)
    (session_id : Option String) (s : TraceState) : String × TraceState :=
  let p :=
    match session_id with
    | none => uuid4 s
    | some sid => if sid = "" then uuid4 s else (sid, s)
  let sid := p.1
  let s := p.2
  let s :=
    if bot.enable_tracing then
      (bot.cfg.create_run (bot.chatbot_name ++ "_session")
        (Val.vdict [("session_id", Val.vstr sid)]) sid
        ["chatbot", "session"] none s).2
    else s
  (sid, s.logInfo "Conversation session started")

/-- `EnhancedQAChatbot.end_conversation_session(session_id, summary=None)`:
with tracing, closes the session run with `{"session_ended": True}` plus
the summary when one is given (`if summary:` — Python truthiness, so an
empty-string summary is not recorded); always logs. -/
def EnhancedQAChatbot.end_conversation_session (bot : EnhancedQAChatbot)
    (session_id : String) (summary : Option String) (s : TraceState) :
    TraceState :=
  let s :=
    if bot.enable_tracing then
      let outputs :=
        match summary with
        | some sm =>
          if sm = "" then Val.vdict [("session_ended", Val.vbool true)]
          else Val.vdict [("session_ended", Val.vbool true),
                          ("summary", Val.vstr sm)]
        | none => Val.vdict [("session_ended", Val.vbool true)]
      bot.cfg.end_run session_id (some outputs) none s
    else s
  s.logInfo "Conversation session ended"

/-- A chat message as passed to `_call_llm`: only its `content` field is
consumed by the embedding (for the traced inputs). -/
structure LLMMessage : Type where
  content : String

/-- The model's response envelope: `content` is `some text` when the
response object has a `content` attribute (`getattr(response, "content", ...)`
finds it) and `none` otherwise; `str_repr` is `str(response)`. -/
structure LLMResponse : Type where
  content : Option String
  str_repr : String

/-- `EnhancedBaseAgent`: the tracing flag (ANDed with the global config by
`__init__`), the class-name constant, the abstract subclass-supplied
business logic `_execute`, and the model backend `llm.ainvoke`. -/
structure EnhancedBaseAgent : Type where
  cfg : LangSmithConfig
  enable_tracing : Bool
  agent_name : String
  impl : Val → Except PyError Val
  ainvoke : List LLMMessage → Except PyError LLMResponse

/-- `EnhancedBaseAgent._execute(input_data)`: the abstract business logic
(`impl` stands for the subclass's override; Python's `_execute` name). -/
def EnhancedBaseAgent._execute (a : EnhancedBaseAgent) (input_data : Val) :
    Except PyError Val :=
  a.impl input_data

/-- The block `if self.enable_tracing: run_id = str(uuid.uuid4());
langsmith_config.create_run(...)` at the head of `execute` / `_call_llm`. -/
def EnhancedBaseAgent.openSpan (a : EnhancedBaseAgent) (name : String)
    (inputs : Val) (tags : List String) (s : TraceState) :
    Option String × TraceState :=
  if a.enable_tracing then
    let u := uuid4 s
    let r := a.cfg.create_run name inputs u.1 tags none u.2
    (some u.1, r.2)
  else (none, s)

/-- The block `if self.enable_tracing and run_id:
langsmith_config.end_run(run_id=run_id, outputs=...)`. -/
def EnhancedBaseAgent.closeOut (a : EnhancedBaseAgent) (rid : Option String)
    (outputs : Val) (s : TraceState) : TraceState :=
  match rid with
  | some r =>
    if a.enable_tracing then a.cfg.end_run r (some outputs) none s else s
  | none => s

/-- The block `if self.enable_tracing and run_id:
langsmith_config.end_run(run_id=run_id, error=e)`. -/
def EnhancedBaseAgent.closeErr (a : EnhancedBaseAgent) (rid : Option String)
    (e : PyError) (s : TraceState) : TraceState :=
  match rid with
  | some r =>
    if a.enable_tracing then a.cfg.end_run r none (some e) s else s
  | none => s

/-- `EnhancedBaseAgent.execute(input_data)`: opens the
`"{agent_name}_execute"` span, logs, runs `_execute`, logs completion and
closes the span with the result — or, in the `except:` arm, logs the
failure, closes the span with the error, and re-raises it unchanged. -/
def EnhancedBaseAgent.execute (a : EnhancedBaseAgent) (input_data : Val)
    (s : TraceState) : Except PyError Val × TraceState :=
  let o := a.openSpan (a.agent_name ++ "_execute") input_data
    ["agent", a.agent_name.toLower] s
  let run_id := o.1
  let s := o.2.logInfo "Agent execution started"
  match a._execute input_data with
  | .ok result =>
    let s := s.logInfo "Agent execution completed"
    (.ok result, a.closeOut run_id result s)
  | .error e =>
    let s := s.logError "Agent execution failed" e
    (.error e, a.closeErr run_id e s)

/-- `EnhancedBaseAgent._call_llm(messages)`: opens the
`"{agent_name}_llm_call"` span with the messages' contents as inputs, calls
`llm.ainvoke`, extracts `getattr(response, "content", str(response))`,
closes the span with `{"response": result}` and returns the text — or, in
the `except:` arm, logs, closes the span with the error and re-raises.
(The `**kwargs` pass-through options are not modelled.) -/
def EnhancedBaseAgent._call_llm (a : EnhancedBaseAgent)
    (messages : List LLMMessage) (s : TraceState) :
    Except PyError String × TraceState :=
  let o := a.openSpan (a.agent_name ++ "_llm_call")
    (Val.vdict [("messages",
      Val.vlist (messages.map (fun m => Val.vstr m.content)))])
    ["llm", a.agent_name.toLower] s
  let run_id := o.1
  let s := o.2
  match a.ainvoke messages with
  | .ok response =>
    let result :=
      match response.content with
      | some c => c
      | none => response.str_repr
    (.ok result,
     a.closeOut run_id (Val.vdict [("response", Val.vstr result)]) s)
  | .error e =>
    let s := s.logError "LLM call failed" e
    (.error e, a.closeErr run_id e s)

/-! ### Helper lemmas shared by several claims -/

/-- Success path of `ask_question`: when all three collaborators return
`ok`, the returned value is the exchange record built from their results. -/
theorem ask_question_ok_fst (bot : EnhancedQAChatbot) (q : String)
    (hist : Option (List Val)) (s : TraceState)
    (ci : List (String × String)) (docs : List String) (ans : String)
    (h1 : bot.extract_company_info q = .ok ci)
    (h2 : bot.search_documents ci q = .ok docs)
    (h3 : bot.generate_answer q docs ci = .ok ans) :
    (bot.ask_question q hist s).1 = .ok (exchangeVal q ans ci docs) := by
  simp [EnhancedQAChatbot.ask_question, EnhancedQAChatbot.askBody, h1, h2, h3]

/-- Extraction-failure path: the original error is the returned failure. -/
theorem ask_question_err1_fst (bot : EnhancedQAChatbot) (q : String)
    (hist : Option (List Val)) (s : TraceState) (e : PyError)
    (h1 : bot.extract_company_info q = .error e) :
    (bot.ask_question q hist s).1 = .error e := by
  simp [EnhancedQAChatbot.ask_question, EnhancedQAChatbot.askBody, h1]

/-- Search-failure path: the original error is the returned failure. -/
theorem ask_question_err2_fst (bot : EnhancedQAChatbot) (q : String)
    (hist : Option (List Val)) (s : TraceState)
    (ci : List (String × String)) (e : PyError)
    (h1 : bot.extract_company_info q = .ok ci)
    (h2 : bot.search_documents ci q = .error e) :
    (bot.ask_question q hist s).1 = .error e := by
  simp [EnhancedQAChatbot.ask_question, EnhancedQAChatbot.askBody, h1, h2]

/-- Generation-failure path: the original error is the returned failure. -/
theorem ask_question_err3_fst (bot : EnhancedQAChatbot) (q : String)
    (hist : Option (List Val)) (s : TraceState)
    (ci : List (String × String)) (docs : List String) (e : PyError)
    (h1 : bot.extract_company_info q = .ok ci)
    (h2 : bot.search_documents ci q = .ok docs)
    (h3 : bot.generate_answer q docs ci = .error e) :
    (bot.ask_question q hist s).1 = .error e := by
  simp [EnhancedQAChatbot.ask_question, EnhancedQAChatbot.askBody, h1, h2, h3]

/-- When extraction fails, the entire observable outcome of `ask_question`
(result and trace state) is independent of the search and generation
collaborators: they are never invoked. -/
theorem ask_question_err1_indep (bot : EnhancedQAChatbot)
    (sea' : List (String × String) → String → Except PyError (List String))
    (gen' : String → List String → List (String × String) →
      Except PyError String)
    (q : String) (hist : Option (List Val)) (s : TraceState) (e : PyError)
    (h1 : bot.extract_company_info q = .error e) :
    bot.ask_question q hist s =
      ({ bot with search_documents := sea',
                  generate_answer := gen' } : EnhancedQAChatbot).ask_question
        q hist s := by
  simp [EnhancedQAChatbot.ask_question, EnhancedQAChatbot.askBody, h1,
        EnhancedQAChatbot.openSpan, EnhancedQAChatbot.closeErr,
        EnhancedQAChatbot.closeOut]

/-- When search fails, the entire observable outcome of `ask_question` is
independent of the generation collaborator: it is never invoked. -/
theorem ask_question_err2_indep (bot : EnhancedQAChatbot)
    (gen' : String → List String → List (String × String) →
      Except PyError String)
    (q : String) (hist : Option (List Val)) (s : TraceState)
    (ci : List (String × String)) (e : PyError)
    (h1 : bot.extract_company_info q = .ok ci)
    (h2 : bot.search_documents ci q = .error e) :
    bot.ask_question q hist s =
      ({ bot with generate_answer := gen' } : EnhancedQAChatbot).ask_question
        q hist s := by
  simp [EnhancedQAChatbot.ask_question, EnhancedQAChatbot.askBody, h1, h2,
        EnhancedQAChatbot.openSpan, EnhancedQAChatbot.closeErr,
        EnhancedQAChatbot.closeOut]

/-- `end_run` records at most an end record or a log line: it never
creates a run. -/
theorem end_run_created (cfg : LangSmithConfig) (rid : String)
    (o : Option Val) (e : Option PyError) (s : TraceState) :
    (cfg.end_run rid o e s).created = s.created := by
  unfold LangSmithConfig.end_run Client.end_run
  rcases cfg with ⟨en, cl⟩
  cases en <;> rcases cl with _ | ⟨c⟩ <;> try simp
  cases c.endFail <;> simp [TraceState.logError]

/-- `create_run` never consumes from the fresh-name supply. -/
theorem create_run_fresh (cfg : LangSmithConfig) (name : String)
    (inputs : Val) (rid : String) (tags : List String)
    (parent : Option String) (s : TraceState) :
    (cfg.create_run name inputs rid tags parent s).2.fresh = s.fresh := by
  unfold LangSmithConfig.create_run Client.create_run
  rcases cfg with ⟨en, cl⟩
  cases en <;> rcases cl with _ | ⟨c⟩ <;> try simp
  cases c.createFail <;> simp [TraceState.logError]

/-- Distinct fresh draws render to distinct uuid strings. -/
theorem uuidStr_injective : Function.Injective uuidStr := by
  intro a b h
  have h2 : a + 1 = b + 1 := by
    have := congrArg String.length h
    simpa [uuidStr] using this
  omega

/-- Every fresh uuid string is non-empty. -/
theorem uuidStr_ne_empty (n : Nat) : uuidStr n ≠ "" := by
  intro h
  have := congrArg String.length h
  simp [uuidStr] at this

/-- `start_conversation_session()` with no id returns the next fresh uuid. -/
theorem start_none_fst (bot : EnhancedQAChatbot) (s : TraceState) :
    (bot.start_conversation_session none s).1 = uuidStr s.fresh := by
  unfold EnhancedQAChatbot.start_conversation_session
  cases bot.enable_tracing <;> simp [uuid4, TraceState.logInfo]

/-- `start_conversation_session()` with no id consumes exactly one fresh
draw. -/
theorem start_none_fresh (bot : EnhancedQAChatbot) (s : TraceState) :
    (bot.start_conversation_session none s).2.fresh = s.fresh + 1 := by
  unfold EnhancedQAChatbot.start_conversation_session
  cases bot.enable_tracing <;>
    simp [uuid4, TraceState.logInfo, create_run_fresh]

/-- The ids produced by `n` consecutive `start_conversation_session()`
calls with no id, threading the state. -/
def sessionIds (bot : EnhancedQAChatbot) : Nat → TraceState → List String
  | 0, _ => []
  | n + 1, s =>
    let p := bot.start_conversation_session none s
    p.1 :: sessionIds bot n p.2

/-- Closed form for `sessionIds`: consecutive fresh uuid strings. -/
theorem sessionIds_eq (bot : EnhancedQAChatbot) (n : Nat) (s : TraceState) :
    sessionIds bot n s =
      (List.range n).map (fun i => uuidStr (s.fresh + i)) := by
  induction n generalizing s with
  | zero => simp [sessionIds]
  | succ n ih =>
    rw [sessionIds, List.range_succ_eq_map]
    simp only [List.map_cons, List.map_map, start_none_fst, ih,
               start_none_fresh, Nat.add_zero]
    congr 1
    refine List.map_congr_left ?_
    intro i _
    simp only [Function.comp_apply]
    congr 1
    omega

/-- With tracing disabled, `ask_question` opens no run and records no end:
the sink's records are untouched on every path. -/
theorem ask_question_untraced (bot : EnhancedQAChatbot) (q : String)
    (hist : Option (List Val)) (s : TraceState)
    (h : bot.enable_tracing = false) :
    ((bot.ask_question q hist s).2).created = s.created ∧
    ((bot.ask_question q hist s).2).ended = s.ended := by
  cases h1 : bot.extract_company_info q with
  | error e =>
    simp [EnhancedQAChatbot.ask_question, EnhancedQAChatbot.askBody,
          EnhancedQAChatbot.openSpan, EnhancedQAChatbot.closeOut,
          EnhancedQAChatbot.closeErr, TraceState.logInfo,
          TraceState.logError, h, h1]
  | ok ci =>
    cases h2 : bot.search_documents ci q with
    | error e =>
      simp [EnhancedQAChatbot.ask_question, EnhancedQAChatbot.askBody,
            EnhancedQAChatbot.openSpan, EnhancedQAChatbot.closeOut,
            EnhancedQAChatbot.closeErr, TraceState.logInfo,
            TraceState.logError, h, h1, h2]
    | ok docs =>
      cases h3 : bot.generate_answer q docs ci with
      | error e =>
        simp [EnhancedQAChatbot.ask_question, EnhancedQAChatbot.askBody,
              EnhancedQAChatbot.openSpan, EnhancedQAChatbot.closeOut,
              EnhancedQAChatbot.closeErr, TraceState.logInfo,
              TraceState.logError, h, h1, h2, h3]
      | ok ans =>
        simp [EnhancedQAChatbot.ask_question, EnhancedQAChatbot.askBody,
              EnhancedQAChatbot.openSpan, EnhancedQAChatbot.closeOut,
              EnhancedQAChatbot.closeErr, TraceState.logInfo,
              TraceState.logError, h, h1, h2, h3]

/-! ### Concrete fixtures used by witnesses and counterexamples -/

/-- A disabled tracing configuration (`LANGSMITH_TRACING` unset). -/
def cfgOff : LangSmithConfig := ⟨false, none⟩

/-- An enabled configuration whose transport always succeeds. -/
def cfgOn : LangSmithConfig := ⟨true, some ⟨none, none⟩⟩

/-- A transport failure used to exercise the best-effort sink. -/
def eTransport : PyError := ⟨"ConnectionError", "sink unreachable"⟩

/-- An enabled configuration whose transport raises on every call. -/
def cfgFailing : LangSmithConfig :=
  ⟨true, some ⟨some eTransport, some eTransport⟩⟩

/-- The spec's scenario chatbot: extraction returns `{name: "Test Corp"}`,
search returns `["doc1","doc2"]`, generation returns `"Test answer"`. -/
def botScenario : EnhancedQAChatbot :=
  mkChatbot true cfgOn
    (fun _ => .ok [("name", "Test Corp")])
    (fun _ _ => .ok ["doc1", "doc2"])
    (fun _ _ _ => .ok "Test answer")

/-- The spec's `LookupFailure` raised by the extraction stage. -/
def eLookup : PyError := ⟨"LookupFailure", "no company found"⟩

/-- A chatbot whose extraction stage raises `LookupFailure`. -/
def botExtractFails : EnhancedQAChatbot :=
  mkChatbot true cfgOn
    (fun _ => .error eLookup)
    (fun _ _ => .ok ["doc1", "doc2"])
    (fun _ _ _ => .ok "Test answer")

/-- The scenario collaborators over a transport that raises on every
tracing call. -/
def botFailingTransport : EnhancedQAChatbot :=
  mkChatbot true cfgFailing
    (fun _ => .ok [("name", "Test Corp")])
    (fun _ _ => .ok ["doc1", "doc2"])
    (fun _ _ _ => .ok "Test answer")

/-- The scenario collaborators with tracing switched off. -/
def botOff : EnhancedQAChatbot :=
  mkChatbot false cfgOff
    (fun _ => .ok [("name", "Test Corp")])
    (fun _ _ => .ok ["doc1", "doc2"])
    (fun _ _ _ => .ok "Test answer")

/-- An agent whose model response has a `content` attribute. -/
def agentWithContent : EnhancedBaseAgent :=
  { cfg := cfgOn
    enable_tracing := true
    agent_name := "MockEnhancedAgent"
    impl := fun v => .ok v
    ainvoke := fun _ => .ok ⟨some "test response", "AIMessage(...)"⟩ }

/-- An agent whose model response lacks a `content` attribute. -/
def agentNoContent : EnhancedBaseAgent :=
  { cfg := cfgOn
    enable_tracing := true
    agent_name := "MockEnhancedAgent"
    impl := fun v => .ok v
    ainvoke := fun _ => .ok ⟨none, "raw response object"⟩ }

/-! ### Claims -/

/-- C1: if any of the three pipeline stages raises inside `ask_question`,
the later stages are not executed (the whole outcome is independent of the
later collaborators), no exchange record is returned (the result is the
failure), and the original error is re-raised unchanged — the same
`PyError` value, hence the same type and message — to the caller. -/
theorem claim_stage_failure_aborts (bot : EnhancedQAChatbot)
    (sea' : List (String × String) → String → Except PyError (List String))
    (gen' : String → List String → List (String × String) →
      Except PyError String)
    (q : String) (hist : Option (List Val)) (s : TraceState) (e : PyError) :
    (bot.extract_company_info q = .error e →
      (bot.ask_question q hist s).1 = .error e ∧
      bot.ask_question q hist s =
        ({ bot with search_documents := sea',
                    generate_answer := gen' } :
          EnhancedQAChatbot).ask_question q hist s)
    ∧ (∀ ci, bot.extract_company_info q = .ok ci →
        bot.search_documents ci q = .error e →
        (bot.ask_question q hist s).1 = .error e ∧
        bot.ask_question q hist s =
          ({ bot with generate_answer := gen' } :
            EnhancedQAChatbot).ask_question q hist s)
    ∧ (∀ ci docs, bot.extract_company_info q = .ok ci →
        bot.search_documents ci q = .ok docs →
        bot.generate_answer q docs ci = .error e →
        (bot.ask_question q hist s).1 = .error e) := by
  refine ⟨fun h1 => ⟨?_, ?_⟩, fun ci h1 h2 => ⟨?_, ?_⟩,
          fun ci docs h1 h2 h3 => ?_⟩
  · exact ask_question_err1_fst bot q hist s e h1
  · exact ask_question_err1_indep bot sea' gen' q hist s e h1
  · exact ask_question_err2_fst bot q hist s ci e h1 h2
  · exact ask_question_err2_indep bot gen' q hist s ci e h1 h2
  · exact ask_question_err3_fst bot q hist s ci docs e h1 h2 h3

/-- Witness for C1: the extraction stage of `botExtractFails` raises
`LookupFailure`; `ask_question` returns that very error and its outcome is
unchanged when the search and generation collaborators are replaced. -/
theorem claim_stage_failure_aborts_witness :
    (botExtractFails.ask_question "What is the revenue?" none
      TraceState.init).1 = .error eLookup ∧
    botExtractFails.ask_question "What is the revenue?" none TraceState.init
      = ({ botExtractFails with
            search_documents := fun _ _ => .ok [],
            generate_answer := fun _ _ _ => .ok "other" } :
          EnhancedQAChatbot).ask_question "What is the revenue?" none
          TraceState.init :=
  (claim_stage_failure_aborts botExtractFails (fun _ _ => .ok [])
    (fun _ _ _ => .ok "other") "What is the revenue?" none TraceState.init
    eLookup).1 rfl

/-- C2: when all three collaborators succeed, `ask_question` returns exactly
the record `{question, answer, company_info, sources, document_count}` with
each collaborator result passed through unchanged. -/
theorem claim_success_exchange (bot : EnhancedQAChatbot) (q : String)
    (hist : Option (List Val)) (s : TraceState)
    (ci : List (String × String)) (docs : List String) (ans : String)
    (h1 : bot.extract_company_info q = .ok ci)
    (h2 : bot.search_documents ci q = .ok docs)
    (h3 : bot.generate_answer q docs ci = .ok ans) :
    (bot.ask_question q hist s).1 =
      .ok (Val.vdict
        [("question", Val.vstr q),
         ("answer", Val.vstr ans),
         ("company_info", companyVal ci),
         ("sources", Val.vlist (docs.map Val.vstr)),
         ("document_count", Val.vnat docs.length)]) :=
  ask_question_ok_fst bot q hist s ci docs ans h1 h2 h3

/-- Witness for C2 — the spec's concrete scenario: question
`"What is the revenue?"`, extraction `{name: "Test Corp"}`, search
`["doc1","doc2"]`, generation `"Test answer"` yield the exchange with
`document_count = 2`. -/
theorem claim_success_exchange_witness :
    (botScenario.ask_question "What is the revenue?" none
      TraceState.init).1 =
      .ok (Val.vdict
        [("question", Val.vstr "What is the revenue?"),
         ("answer", Val.vstr "Test answer"),
         ("company_info",
          Val.vdict [("name", Val.vstr "Test Corp")]),
         ("sources", Val.vlist [Val.vstr "doc1", Val.vstr "doc2"]),
         ("document_count", Val.vnat 2)]) :=
  claim_success_exchange botScenario "What is the revenue?" none
    TraceState.init [("name", "Test Corp")] ["doc1", "doc2"] "Test answer"
    rfl rfl rfl

/-- C3: in every exchange record returned by `ask_question`, the
`document_count` field equals the length of the `sources` field; both are
derived once, from the document searcher's result, when the record is
assembled (the record, a pure value, is never mutated afterwards). -/
theorem claim_document_count_invariant (bot : EnhancedQAChatbot)
    (q : String) (hist : Option (List Val)) (s : TraceState)
    (entries : List (String × Val))
    (h : (bot.ask_question q hist s).1 = .ok (Val.vdict entries)) :
    ∃ docs : List String,
      bot.search_documents
        (match bot.extract_company_info q with
         | .ok ci => ci
         | .error _ => []) q = .ok docs ∧
      entries.lookup "sources" = some (Val.vlist (docs.map Val.vstr)) ∧
      entries.lookup "document_count" = some (Val.vnat docs.length) := by
  cases h1 : bot.extract_company_info q with
  | error e =>
    rw [ask_question_err1_fst bot q hist s e h1] at h
    exact absurd h (by simp)
  | ok ci =>
    cases h2 : bot.search_documents ci q with
    | error e =>
      rw [ask_question_err2_fst bot q hist s ci e h1 h2] at h
      exact absurd h (by simp)
    | ok docs =>
      cases h3 : bot.generate_answer q docs ci with
      | error e =>
        rw [ask_question_err3_fst bot q hist s ci docs e h1 h2 h3] at h
        exact absurd h (by simp)
      | ok ans =>
        rw [ask_question_ok_fst bot q hist s ci docs ans h1 h2 h3] at h
        simp only [Except.ok.injEq, exchangeVal, Val.vdict.injEq] at h
        refine ⟨docs, by simp [h1, h2], ?_, ?_⟩ <;>
          simp [← h, List.lookup]

/-- Witness for C3: the spec scenario's exchange has `sources` of length 2
and `document_count = 2`. -/
theorem claim_document_count_invariant_witness :
    ∃ docs : List String,
      botScenario.search_documents
        (match botScenario.extract_company_info "What is the revenue?" with
         | .ok ci => ci
         | .error _ => []) "What is the revenue?" = .ok docs ∧
      ([("question", Val.vstr "What is the revenue?"),
        ("answer", Val.vstr "Test answer"),
        ("company_info", Val.vdict [("name", Val.vstr "Test Corp")]),
        ("sources", Val.vlist [Val.vstr "doc1", Val.vstr "doc2"]),
        ("document_count", Val.vnat 2)] :
        List (String × Val)).lookup "sources" =
        some (Val.vlist (docs.map Val.vstr)) ∧
      ([("question", Val.vstr "What is the revenue?"),
        ("answer", Val.vstr "Test answer"),
        ("company_info", Val.vdict [("name", Val.vstr "Test Corp")]),
        ("sources", Val.vlist [Val.vstr "doc1", Val.vstr "doc2"]),
        ("document_count", Val.vnat 2)] :
        List (String × Val)).lookup "document_count" =
        some (Val.vnat docs.length) :=
  claim_document_count_invariant botScenario "What is the revenue?" none
    TraceState.init
    [("question", Val.vstr "What is the revenue?"),
     ("answer", Val.vstr "Test answer"),
     ("company_info", Val.vdict [("name", Val.vstr "Test Corp")]),
     ("sources", Val.vlist [Val.vstr "doc1", Val.vstr "doc2"]),
     ("document_count", Val.vnat 2)] rfl

/-- C5: the sink operations never raise to their caller (their Lean result
types carry no `Except`): when tracing is disabled they are no-ops
(`create_run` returns `None`, `end_run` returns without effect); when
enabled and the underlying client call raises, the exception is caught and
logged and `create_run` returns `None`; and a functional pipeline running
through `ask_question` over an always-failing transport still completes
and returns its exchange. -/
theorem claim_sink_best_effort (cfg : LangSmithConfig) (name : String)
    (inputs : Val) (rid : String) (tags : List String)
    (parent : Option String) (outputs : Option Val)
    (err : Option PyError) (s : TraceState) (c : Client) (e e' : PyError)
    (ext : String → Except PyError (List (String × String)))
    (sea : List (String × String) → String → Except PyError (List String))
    (gen : String → List String → List (String × String) →
      Except PyError String)
    (q : String) (hist : Option (List Val))
    (ci : List (String × String)) (docs : List String) (ans : String) :
    (cfg.enabled = false →
      cfg.create_run name inputs rid tags parent s = (none, s) ∧
      cfg.end_run rid outputs err s = s)
    ∧ (cfg.enabled = true → cfg.client = some c → c.createFail = some e →
        cfg.create_run name inputs rid tags parent s =
          (none, s.logError "Failed to create LangSmith run" e))
    ∧ (cfg.enabled = true → cfg.client = some c → c.endFail = some e' →
        cfg.end_run rid outputs err s =
          s.logError "Failed to end LangSmith run" e')
    ∧ (ext q = .ok ci → sea ci q = .ok docs → gen q docs ci = .ok ans →
        ((mkChatbot true cfgFailing ext sea gen).ask_question q hist
          s).1 = .ok (exchangeVal q ans ci docs)) := by
  refine ⟨fun hd => ⟨?_, ?_⟩, fun hen hc hf => ?_, fun hen hc hf => ?_,
          fun h1 h2 h3 => ?_⟩
  · simp [LangSmithConfig.create_run, hd]
  · simp [LangSmithConfig.end_run, hd]
  · simp [LangSmithConfig.create_run, Client.create_run, hen, hc, hf]
  · simp [LangSmithConfig.end_run, Client.end_run, hen, hc, hf]
  · exact ask_question_ok_fst (mkChatbot true cfgFailing ext sea gen) q
      hist s ci docs ans (by simpa [mkChatbot]) (by simpa [mkChatbot])
      (by simpa [mkChatbot])

/-- Witness for C5: the disabled sink is a no-op; the always-failing
transport is caught and logged while `create_run` returns `None`; and the
scenario pipeline over the failing transport still returns its exchange. -/
theorem claim_sink_best_effort_witness :
    (cfgOff.create_run "n" (Val.vdict []) "rid" [] none TraceState.init =
        (none, TraceState.init) ∧
      cfgOff.end_run "rid" none none TraceState.init = TraceState.init)
    ∧ cfgFailing.create_run "n" (Val.vdict []) "rid" [] none
        TraceState.init =
        (none,
         TraceState.init.logError "Failed to create LangSmith run"
           eTransport)
    ∧ (botFailingTransport.ask_question "What is the revenue?" none
        TraceState.init).1 =
        .ok (exchangeVal "What is the revenue?" "Test answer"
          [("name", "Test Corp")] ["doc1", "doc2"]) := by
  have t1 := claim_sink_best_effort cfgOff "n" (Val.vdict []) "rid" []
    none none none TraceState.init ⟨none, none⟩ eTransport eTransport
    (fun _ => .ok [("name", "Test Corp")])
    (fun _ _ => .ok ["doc1", "doc2"]) (fun _ _ _ => .ok "Test answer")
    "What is the revenue?" none [("name", "Test Corp")] ["doc1", "doc2"]
    "Test answer"
  have t2 := claim_sink_best_effort cfgFailing "n" (Val.vdict []) "rid" []
    none none none TraceState.init ⟨some eTransport, some eTransport⟩
    eTransport eTransport
    (fun _ => .ok [("name", "Test Corp")])
    (fun _ _ => .ok ["doc1", "doc2"]) (fun _ _ _ => .ok "Test answer")
    "What is the revenue?" none [("name", "Test Corp")] ["doc1", "doc2"]
    "Test answer"
  exact ⟨t1.1 rfl, t2.2.1 rfl rfl rfl, t2.2.2.2 rfl rfl rfl⟩

/-- C9: calling `end_conversation_session` twice in a row on the same id
does not raise (the operation is total — its Lean type has no `Except` —
and the double call leaves the created-run records untouched); and when
tracing is disabled a call has no effect beyond appending its log line. -/
theorem claim_end_session_best_effort (bot : EnhancedQAChatbot)
    (sid : String) (summary : Option String) (s : TraceState) :
    ((bot.end_conversation_session sid summary
        (bot.end_conversation_session sid summary s)).created =
      s.created)
    ∧ (bot.enable_tracing = false →
        bot.end_conversation_session sid summary s =
          { s with log := s.log ++ ["Conversation session ended"] }) := by
  constructor
  · unfold EnhancedQAChatbot.end_conversation_session
    cases bot.enable_tracing <;>
      simp [TraceState.logInfo, end_run_created]
  · intro hd
    simp [EnhancedQAChatbot.end_conversation_session, hd,
          TraceState.logInfo]

/-- Witness for C9: with tracing disabled, a double end on `"sid"` leaves
the created runs empty and a single end only logs. -/
theorem claim_end_session_best_effort_witness :
    ((botOff.end_conversation_session "sid" (some "summary")
        (botOff.end_conversation_session "sid" (some "summary")
          TraceState.init)).created = TraceState.init.created)
    ∧ botOff.end_conversation_session "sid" (some "summary")
        TraceState.init =
        { TraceState.init with
          log := TraceState.init.log ++ ["Conversation session ended"] } :=
  ⟨(claim_end_session_best_effort botOff "sid" (some "summary")
      TraceState.init).1,
   (claim_end_session_best_effort botOff "sid" (some "summary")
      TraceState.init).2 rfl⟩

/-- C6: every run opened during one invocation of `ask_question` (from the
empty trace state, over a transport whose calls succeed) is closed exactly
once with either outputs or an error before `ask_question` returns or
re-raises, and the terminal kind follows the path: on the success path
every opened run — the three children and the root — is closed with
outputs, and on the failure path of any stage the failing child's run and
the root run are both closed with the original stage error before it
propagates.  With tracing disabled no run is opened and every part is
vacuous. -/
theorem claim_spans_closed_once (tr : Bool) (cfg : LangSmithConfig)
    (c : Client)
    (ext : String → Except PyError (List (String × String)))
    (sea : List (String × String) → String → Except PyError (List String))
    (gen : String → List String → List (String × String) →
      Except PyError String)
    (q : String) (hist : Option (List Val))
    (hc : cfg.client = some c) (hcf : c.createFail = none)
    (hef : c.endFail = none)
    (out : Except PyError Val × TraceState)
    (hout : (mkChatbot tr cfg ext sea gen).ask_question q hist
      TraceState.init = out) :
    (∀ r ∈ out.2.created,
      (out.2.ended.filter (fun en => en.run_id == r.run_id)).length = 1 ∧
      ∀ en ∈ out.2.ended, en.run_id = r.run_id →
        ((∃ v, en.outputs = some v) ∧ en.error = none) ∨
        (en.outputs = none ∧ ∃ e, en.error = some e))
    ∧ (∀ ci docs ans, ext q = .ok ci → sea ci q = .ok docs →
        gen q docs ci = .ok ans →
        ∀ r ∈ out.2.created, ∃ v,
          out.2.ended.filter (fun en => en.run_id == r.run_id) =
            [⟨r.run_id, some v, none⟩])
    ∧ (∀ e, ext q = .error e →
        ∀ r ∈ out.2.created,
          r.name = "company_extraction" ∨
            r.name = "EnhancedQAChatbot_query" →
          out.2.ended.filter (fun en => en.run_id == r.run_id) =
            [⟨r.run_id, none, some e⟩])
    ∧ (∀ ci e, ext q = .ok ci → sea ci q = .error e →
        ∀ r ∈ out.2.created,
          r.name = "document_search" ∨
            r.name = "EnhancedQAChatbot_query" →
          out.2.ended.filter (fun en => en.run_id == r.run_id) =
            [⟨r.run_id, none, some e⟩])
    ∧ (∀ ci docs e, ext q = .ok ci → sea ci q = .ok docs →
        gen q docs ci = .error e →
        ∀ r ∈ out.2.created,
          r.name = "answer_generation" ∨
            r.name = "EnhancedQAChatbot_query" →
          out.2.ended.filter (fun en => en.run_id == r.run_id) =
            [⟨r.run_id, none, some e⟩]) := by
  subst hout
  rcases cfg with ⟨en, cl⟩
  rcases c with ⟨cf, ef⟩
  simp only [Option.some.injEq] at hc
  subst hc
  subst hcf
  subst hef
  by_cases htr :
    (mkChatbot tr ⟨en, some ⟨none, none⟩⟩ ext sea gen).enable_tracing
      = false
  · rw [(ask_question_untraced _ q hist TraceState.init htr).1]
    simp [TraceState.init]
  · have htr' : tr = true ∧ en = true := by
      simp [mkChatbot, LangSmithConfig.is_enabled] at htr
      exact htr
    obtain ⟨rfl, rfl⟩ := htr'
    clear htr
    cases h1 : ext q with
    | error e =>
      simp [EnhancedQAChatbot.ask_question, EnhancedQAChatbot.askBody,
        EnhancedQAChatbot.openSpan, EnhancedQAChatbot.closeOut,
        EnhancedQAChatbot.closeErr, LangSmithConfig.create_run,
        LangSmithConfig.end_run, Client.create_run, Client.end_run,
        mkChatbot, LangSmithConfig.is_enabled, uuid4, uuidStr,
        TraceState.logInfo, TraceState.logError, TraceState.init,
        h1, List.filter]
    | ok ci =>
      cases h2 : sea ci q with
      | error e =>
        simp [EnhancedQAChatbot.ask_question, EnhancedQAChatbot.askBody,
          EnhancedQAChatbot.openSpan, EnhancedQAChatbot.closeOut,
          EnhancedQAChatbot.closeErr, LangSmithConfig.create_run,
          LangSmithConfig.end_run, Client.create_run, Client.end_run,
          mkChatbot, LangSmithConfig.is_enabled, uuid4, uuidStr,
          TraceState.logInfo, TraceState.logError, TraceState.init,
          h1, h2, List.filter]
        refine ⟨fun ci1 docs ans hci hs => ?_, fun ci1 e1 hci hs => ?_,
                fun ci1 docs e1 hci hs => ?_⟩
        · subst hci; rw [h2] at hs; simp at hs
        · subst hci; rw [h2] at hs; simp at hs; exact hs
        · subst hci; rw [h2] at hs; simp at hs
      | ok docs =>
        cases h3 : gen q docs ci with
        | error e =>
          simp [EnhancedQAChatbot.ask_question, EnhancedQAChatbot.askBody,
            EnhancedQAChatbot.openSpan, EnhancedQAChatbot.closeOut,
            EnhancedQAChatbot.closeErr, LangSmithConfig.create_run,
            LangSmithConfig.end_run, Client.create_run, Client.end_run,
            mkChatbot, LangSmithConfig.is_enabled, uuid4, uuidStr,
            TraceState.logInfo, TraceState.logError, TraceState.init,
            h1, h2, h3, List.filter]
          refine ⟨fun ci1 docs1 ans hci hs => ?_, fun ci1 e1 hci => ?_,
                  fun ci1 docs1 e1 hci hs hg => ?_⟩
          · subst hci; rw [h2] at hs; simp at hs; subst hs; simp [h3]
          · subst hci; simp [h2]
          · subst hci; rw [h2] at hs; simp at hs; subst hs
            rw [h3] at hg; simp at hg; exact hg
        | ok ans =>
          simp [EnhancedQAChatbot.ask_question, EnhancedQAChatbot.askBody,
            EnhancedQAChatbot.openSpan, EnhancedQAChatbot.closeOut,
            EnhancedQAChatbot.closeErr, LangSmithConfig.create_run,
            LangSmithConfig.end_run, Client.create_run, Client.end_run,
            mkChatbot, LangSmithConfig.is_enabled, uuid4, uuidStr,
            TraceState.logInfo, TraceState.logError, TraceState.init,
            h1, h2, h3, List.filter]
          refine ⟨fun ci1 e1 hci => ?_, fun ci1 docs1 e1 hci hs => ?_⟩
          · subst hci; simp [h2]
          · subst hci; rw [h2] at hs; simp at hs; subst hs; simp [h3]

/-- Witness for C6: in the extraction-failure scenario (`LookupFailure`),
the root run (id `"u"`) and the failing child (id `"uu"`) each close with
exactly that error, and in the all-success scenario the root run closes
with outputs. -/
theorem claim_spans_closed_once_witness :
    ((botExtractFails.ask_question "What is the revenue?" none
        TraceState.init).2.ended.filter
      (fun en => en.run_id == "u")) = [⟨"u", none, some eLookup⟩]
    ∧ ((botExtractFails.ask_question "What is the revenue?" none
        TraceState.init).2.ended.filter
      (fun en => en.run_id == "uu")) = [⟨"uu", none, some eLookup⟩]
    ∧ ∃ v, ((botScenario.ask_question "What is the revenue?" none
        TraceState.init).2.ended.filter
      (fun en => en.run_id == "u")) = [⟨"u", some v, none⟩] := by
  have H1 := claim_spans_closed_once true cfgOn ⟨none, none⟩
    (fun _ => .error eLookup)
    (fun _ _ => .ok ["doc1", "doc2"])
    (fun _ _ _ => .ok "Test answer")
    "What is the revenue?" none rfl rfl rfl
    (botExtractFails.ask_question "What is the revenue?" none
      TraceState.init) rfl
  have H2 := claim_spans_closed_once true cfgOn ⟨none, none⟩
    (fun _ => .ok [("name", "Test Corp")])
    (fun _ _ => .ok ["doc1", "doc2"])
    (fun _ _ _ => .ok "Test answer")
    "What is the revenue?" none rfl rfl rfl
    (botScenario.ask_question "What is the revenue?" none TraceState.init)
    rfl
  refine ⟨?_, ?_, ?_⟩
  · refine H1.2.2.1 eLookup rfl ⟨"u", "EnhancedQAChatbot_query",
      Val.vdict [("question", Val.vstr "What is the revenue?"),
                 ("conversation_history", Val.vlist [])],
      ["chatbot", "qa", "query"], none⟩ ?_ (Or.inr rfl)
    simp [botExtractFails, eLookup, EnhancedQAChatbot.ask_question,
      EnhancedQAChatbot.askBody, EnhancedQAChatbot.openSpan,
      EnhancedQAChatbot.closeOut, EnhancedQAChatbot.closeErr,
      LangSmithConfig.create_run, LangSmithConfig.end_run,
      Client.create_run, Client.end_run, mkChatbot, cfgOn,
      LangSmithConfig.is_enabled, uuid4, uuidStr, companyVal,
      TraceState.logInfo, TraceState.logError, TraceState.init]
  · refine H1.2.2.1 eLookup rfl ⟨"uu", "company_extraction",
      Val.vdict [("question", Val.vstr "What is the revenue?")],
      ["chatbot", "company-extraction"], some "u"⟩ ?_ (Or.inl rfl)
    simp [botExtractFails, eLookup, EnhancedQAChatbot.ask_question,
      EnhancedQAChatbot.askBody, EnhancedQAChatbot.openSpan,
      EnhancedQAChatbot.closeOut, EnhancedQAChatbot.closeErr,
      LangSmithConfig.create_run, LangSmithConfig.end_run,
      Client.create_run, Client.end_run, mkChatbot, cfgOn,
      LangSmithConfig.is_enabled, uuid4, uuidStr, companyVal,
      TraceState.logInfo, TraceState.logError, TraceState.init]
  · refine H2.2.1 [("name", "Test Corp")] ["doc1", "doc2"] "Test answer"
      rfl rfl rfl ⟨"u", "EnhancedQAChatbot_query",
      Val.vdict [("question", Val.vstr "What is the revenue?"),
                 ("conversation_history", Val.vlist [])],
      ["chatbot", "qa", "query"], none⟩ ?_
    simp [botScenario, EnhancedQAChatbot.ask_question,
      EnhancedQAChatbot.askBody, EnhancedQAChatbot.openSpan,
      EnhancedQAChatbot.closeOut, EnhancedQAChatbot.closeErr,
      LangSmithConfig.create_run, LangSmithConfig.end_run,
      Client.create_run, Client.end_run, mkChatbot, cfgOn,
      LangSmithConfig.is_enabled, uuid4, uuidStr, companyVal,
      TraceState.logInfo, TraceState.logError, TraceState.init]

/-- C7: when tracing is enabled (with a working transport) and the
exchange succeeds, the root run — the created run named
`"EnhancedQAChatbot_query"` with no parent — is closed with outputs equal
exactly to the exchange record `ask_question` returns: the same `Val`,
hence with no extra and no missing keys. -/
theorem claim_root_outputs_equal_exchange (cfg : LangSmithConfig)
    (c : Client)
    (ext : String → Except PyError (List (String × String)))
    (sea : List (String × String) → String → Except PyError (List String))
    (gen : String → List String → List (String × String) →
      Except PyError String)
    (q : String) (hist : Option (List Val))
    (ci : List (String × String)) (docs : List String) (ans : String)
    (out : Except PyError Val × TraceState)
    (hen : cfg.enabled = true) (hc : cfg.client = some c)
    (hcf : c.createFail = none) (hef : c.endFail = none)
    (h1 : ext q = .ok ci) (h2 : sea ci q = .ok docs)
    (h3 : gen q docs ci = .ok ans)
    (hout : (mkChatbot true cfg ext sea gen).ask_question q hist
      TraceState.init = out) :
    out.1 = .ok (exchangeVal q ans ci docs) ∧
    ∃ root ∈ out.2.created,
      root.name = "EnhancedQAChatbot_query" ∧
      root.parent_run_id = none ∧
      out.2.ended.filter (fun en => en.run_id == root.run_id) =
        [⟨root.run_id, some (exchangeVal q ans ci docs), none⟩] := by
  subst hout
  rcases cfg with ⟨en, cl⟩
  rcases c with ⟨cf, ef⟩
  simp only [Option.some.injEq] at hc
  subst hc
  subst hcf
  subst hef
  subst hen
  simp [EnhancedQAChatbot.ask_question, EnhancedQAChatbot.askBody,
    EnhancedQAChatbot.openSpan, EnhancedQAChatbot.closeOut,
    EnhancedQAChatbot.closeErr, LangSmithConfig.create_run,
    LangSmithConfig.end_run, Client.create_run, Client.end_run,
    mkChatbot, LangSmithConfig.is_enabled, uuid4, uuidStr,
    TraceState.logInfo, TraceState.logError, TraceState.init,
    h1, h2, h3, List.filter]

/-- Witness for C7: in the concrete scenario the root run's sole end
record carries exactly the returned exchange as outputs. -/
theorem claim_root_outputs_equal_exchange_witness :
    (botScenario.ask_question "What is the revenue?" none
        TraceState.init).1 =
      .ok (exchangeVal "What is the revenue?" "Test answer"
        [("name", "Test Corp")] ["doc1", "doc2"]) ∧
    ∃ root ∈ (botScenario.ask_question "What is the revenue?" none
        TraceState.init).2.created,
      root.name = "EnhancedQAChatbot_query" ∧
      root.parent_run_id = none ∧
      (botScenario.ask_question "What is the revenue?" none
          TraceState.init).2.ended.filter
        (fun en => en.run_id == root.run_id) =
        [⟨root.run_id,
          some (exchangeVal "What is the revenue?" "Test answer"
            [("name", "Test Corp")] ["doc1", "doc2"]), none⟩] :=
  claim_root_outputs_equal_exchange cfgOn ⟨none, none⟩
    (fun _ => .ok [("name", "Test Corp")])
    (fun _ _ => .ok ["doc1", "doc2"])
    (fun _ _ _ => .ok "Test answer")
    "What is the revenue?" none [("name", "Test Corp")] ["doc1", "doc2"]
    "Test answer"
    (botScenario.ask_question "What is the revenue?" none TraceState.init)
    rfl rfl rfl rfl rfl rfl rfl rfl

/-- C8 counterexample: the claim "called with an id it returns that id
unchanged" fails at the concrete input `session_id = ""`: Python's
`if not session_id:` treats the empty string as absent, so a fresh uuid is
returned instead of `""`. -/
theorem claim_start_session_counterexample :
    (botOff.start_conversation_session (some "") TraceState.init).1 ≠ "" :=
  by decide

/-- C8 as amended: `start_conversation_session` called with no id returns
a new, non-empty session id, distinct across repeated calls (here across
any number of calls, hence across ≥ 1000); called with a **non-empty** id
it returns that id unchanged and never raises (total, no `Except` in its
type), without checking whether the id is already active (the state is
never read for the id). -/
theorem claim_start_session_fresh_ids (bot : EnhancedQAChatbot)
    (s : TraceState) (n : Nat) (sid : String) :
    (sid ≠ "" → (bot.start_conversation_session (some sid) s).1 = sid)
    ∧ (bot.start_conversation_session none s).1 ≠ ""
    ∧ (sessionIds bot n s).Nodup
    ∧ (sessionIds bot n s).length = n := by
  refine ⟨fun h => ?_, ?_, ?_, ?_⟩
  · unfold EnhancedQAChatbot.start_conversation_session
    cases bot.enable_tracing <;> simp [h, TraceState.logInfo]
  · rw [start_none_fst]
    exact uuidStr_ne_empty s.fresh
  · rw [sessionIds_eq]
    exact (List.nodup_range n).map
      (uuidStr_injective.comp (add_right_injective s.fresh))
  · rw [sessionIds_eq]
    simp

/-- Witness for the amended C8: a non-empty id is returned unchanged, a
generated id is non-empty, and 1000 consecutive generated ids are pairwise
distinct. -/
theorem claim_start_session_fresh_ids_witness :
    (botOff.start_conversation_session (some "my-session")
        TraceState.init).1 = "my-session"
    ∧ (botOff.start_conversation_session none TraceState.init).1 ≠ ""
    ∧ (sessionIds botOff 1000 TraceState.init).Nodup
    ∧ (sessionIds botOff 1000 TraceState.init).length = 1000 :=
  ⟨(claim_start_session_fresh_ids botOff TraceState.init 1000
      "my-session").1 (by decide),
   (claim_start_session_fresh_ids botOff TraceState.init 1000
      "my-session").2.1,
   (claim_start_session_fresh_ids botOff TraceState.init 1000
      "my-session").2.2.1,
   (claim_start_session_fresh_ids botOff TraceState.init 1000
      "my-session").2.2.2⟩

/-- C4: `execute` is observationally identical to the bare `_execute`
business logic — for every agent (tracing enabled or disabled) and every
input, the functional outcome (returned value or raised error) of
`execute` is exactly that of `_execute`. -/
theorem claim_execute_transparent (a : EnhancedBaseAgent) (input_data : Val)
    (s : TraceState) :
    (a.execute input_data s).1 = a._execute input_data := by
  unfold EnhancedBaseAgent.execute
  cases h : a._execute input_data <;> simp [h]

/-- C10: `_call_llm` returns exactly the `content` field of the model's
response when that field exists, and falls back to the string
representation of the whole response (rather than raising) when the
response has no `content` field. -/
theorem claim_call_llm_content_fallback (a : EnhancedBaseAgent)
    (messages : List LLMMessage) (s : TraceState) (r : LLMResponse)
    (c : String) (h : a.ainvoke messages = .ok r) :
    (r.content = some c → (a._call_llm messages s).1 = .ok c) ∧
    (r.content = none → (a._call_llm messages s).1 = .ok r.str_repr) := by
  constructor <;> intro hc <;>
    simp [EnhancedBaseAgent._call_llm, h, hc]

/-- Witness for C10: with a `content` attribute the text is returned;
without one the response's string representation is returned. -/
theorem claim_call_llm_content_fallback_witness :
    (agentWithContent._call_llm [⟨"hi"⟩] TraceState.init).1 =
      .ok "test response" ∧
    (agentNoContent._call_llm [⟨"hi"⟩] TraceState.init).1 =
      .ok "raw response object" :=
  ⟨(claim_call_llm_content_fallback agentWithContent [⟨"hi"⟩]
      TraceState.init ⟨some "test response", "AIMessage(...)"⟩
      "test response" rfl).1 rfl,
   (claim_call_llm_content_fallback agentNoContent [⟨"hi"⟩]
      TraceState.init ⟨none, "raw response object"⟩ "" rfl).2 rfl⟩

end FinancialAI
